import Mathlib

/-!
Shallow embedding of the plugin lifecycle and dynamic-loading subsystem of
`plugins/zenoh-plugin-trait/src/loading.rs`.

Rust `ZResult<T>` is embedded as `Except String T` (errors are rendered to
strings exactly where the source formats them).  The effectful pieces —
opening a shared library from the file system, reading its exported symbols —
are embedded as explicit oracle parameters: a `LibLoader` is a function from a
path/name to either an error or an opened `Library` together with its resolved
path, and a `Library`'s three exported symbols are `Except`-valued fields
(symbol lookup may fail; calling the resolved symbol is pure).  Functions that
the source runs for their effects additionally return instrumentation
(the list of gate steps performed, the paths attempted, the messages sent to
the log, the number of times a start entry point was invoked) so that
evaluation-order claims can be stated.
-/

set_option autoImplicit false

/-- Embeds `PluginState` (loading.rs:25-30). -/
inductive PluginState where
  | Declared
  | Loaded
  | Running
deriving DecidableEq, Repr

/-- Embeds `PluginCondition` (loading.rs:32-36): ordered warnings and errors. -/
structure PluginCondition where
  warnings : List String
  errors : List String
deriving DecidableEq, Repr

/-- Embeds `PluginCondition::new` (loading.rs:39-41). -/
def PluginCondition.new : PluginCondition := ⟨[], []⟩

/-- Embeds `PluginCondition::clear` (loading.rs:42-45). -/
def PluginCondition.clear (_c : PluginCondition) : PluginCondition := ⟨[], []⟩

/-- Embeds `PluginCondition::add_error` (loading.rs:46-48). -/
def PluginCondition.add_error (c : PluginCondition) (e : String) : PluginCondition :=
  { c with errors := c.errors ++ [e] }

/-- Embeds `PluginCondition::add_warning` (loading.rs:49-51). -/
def PluginCondition.add_warning (c : PluginCondition) (w : String) : PluginCondition :=
  { c with warnings := c.warnings ++ [w] }

/-- Embeds `PluginCondition::catch_error` (loading.rs:52-61).  The attempt is
pure here, so running the closure after the clear is represented by taking the
attempt's result as an argument: the condition is cleared, and on error the
formatted error is appended while the error is still propagated. -/
def PluginCondition.catch_error {α : Type} (c : PluginCondition) (r : Except String α) :
    PluginCondition × Except String α :=
  match r with
  | .ok v => (c.clear, .ok v)
  | .error e => ((c.clear).add_error e, .error e)

/-- Embeds `PluginStatus` (loading.rs:70-74). -/
structure PluginStatus where
  state : PluginState
  condition : PluginCondition
deriving DecidableEq, Repr

/-- Embeds `PluginVTable` (vtable module): the entry-point table, at minimum a
`start(name, args) -> ZResult<Instance>` operation (spec §6). -/
structure PluginVTable (StartArgs Instance : Type) where
  start : String → StartArgs → Except String Instance

/-- Embeds an opened `libloading::Library` as seen through `lib.get`: the three
exported symbols of the binary ABI contract (spec §6).  Each field is the
result of looking the symbol up and calling it: `.error` when `lib.get` fails
for that symbol. -/
structure Library (StartArgs Instance Compat : Type) where
  get_plugin_loader_version : Except String Nat
  get_compatibility : Except String Compat
  load_plugin : Except String (PluginVTable StartArgs Instance)

/-- Modelled from the spec: the `vtable` module (the host's
`PLUGIN_LOADER_VERSION` constant, `Compatibility::new::<StartArgs, Instance>()`,
`Compatibility::are_compatible` and the `Display` rendering of a compatibility
record) is not under `src/`; per §4.4/§6 it is abstracted as a host-side record
of parameters: a fixed loader-protocol version, the host's compatibility record
for the generic parameters in use, a deterministic compatibility relation, and
a rendering function. -/
structure Host (StartArgs Instance Compat : Type) where
  PLUGIN_LOADER_VERSION : Nat
  host_compatibility_record : Compat
  are_compatible : Compat → Compat → Bool
  showCompat : Compat → String

/-- Instrumentation for the compatibility gate: which module symbols
`DynamicPluginStarter::get_vtable` read, in order. -/
inductive GateStep where
  | readVersion
  | readCompat
  | readVTable
deriving DecidableEq, Repr

/-- Embeds `DynamicPluginStarter::get_vtable` (loading.rs:239-270).  Returns
the source's result together with the ordered list of module symbols that were
read (the instrumentation component).  Step 1 reads and checks the
loader-protocol version by exact equality; step 2 reads the module's
compatibility record and checks `plugin.are_compatible(&host)`; only then is
`load_plugin` fetched and called. -/
def DynamicPluginStarter.get_vtable {StartArgs Instance Compat : Type}
    (host : Host StartArgs Instance Compat) (lib : Library StartArgs Instance Compat) :
    Except String (PluginVTable StartArgs Instance) × List GateStep :=
  match lib.get_plugin_loader_version with
  | .error e => (.error e, [GateStep.readVersion])
  | .ok plugin_loader_version =>
    if plugin_loader_version ≠ host.PLUGIN_LOADER_VERSION then
      (.error ("Plugin loader version mismatch: host = " ++
          toString host.PLUGIN_LOADER_VERSION ++ ", plugin = " ++
          toString plugin_loader_version),
        [GateStep.readVersion])
    else
      match lib.get_compatibility with
      | .error e => (.error e, [GateStep.readVersion, GateStep.readCompat])
      | .ok plugin_compatibility_record =>
        if ¬ host.are_compatible plugin_compatibility_record host.host_compatibility_record then
          (.error ("Plugin compatibility mismatch:\n\nHost:\n" ++
              host.showCompat host.host_compatibility_record ++ "\nPlugin:\n" ++
              host.showCompat plugin_compatibility_record ++ "\n"),
            [GateStep.readVersion, GateStep.readCompat])
        else
          match lib.load_plugin with
          | .error e =>
              (.error e, [GateStep.readVersion, GateStep.readCompat, GateStep.readVTable])
          | .ok vtable =>
              (.ok vtable, [GateStep.readVersion, GateStep.readCompat, GateStep.readVTable])

/-- Embeds `DynamicPluginStarter` (loading.rs:230-234): the loaded module
handle, its resolved path and the cached entry-point table. -/
structure DynamicPluginStarter (StartArgs Instance Compat : Type) where
  _lib : Library StartArgs Instance Compat
  path : String
  vtable : PluginVTable StartArgs Instance

/-- Embeds `DynamicPluginStarter::new` (loading.rs:271-278). -/
def DynamicPluginStarter.new {StartArgs Instance Compat : Type}
    (host : Host StartArgs Instance Compat) (lib : Library StartArgs Instance Compat)
    (path : String) : Except String (DynamicPluginStarter StartArgs Instance Compat) :=
  match (DynamicPluginStarter.get_vtable host lib).1 with
  | .error e => .error e
  | .ok vtable => .ok ⟨lib, path, vtable⟩

/-- Embeds `DynamicPluginStarter::start` (loading.rs:279-281). -/
def DynamicPluginStarter.start {StartArgs Instance Compat : Type}
    (s : DynamicPluginStarter StartArgs Instance Compat) (name : String) (args : StartArgs) :
    Except String Instance :=
  s.vtable.start name args

/-- Embeds a `LibLoader`-style open operation: given a path (or, for
`search_and_load`, a name), either an error or the opened library together
with its resolved path. -/
def LibLoader (StartArgs Instance Compat : Type) : Type :=
  String → Except String (Library StartArgs Instance Compat × String)

/-- Embeds `DynamicPluginSource` (loading.rs:202-209). -/
inductive DynamicPluginSource (StartArgs Instance Compat : Type) where
  | byName : LibLoader StartArgs Instance Compat → String →
      DynamicPluginSource StartArgs Instance Compat
  | byPaths : List String → DynamicPluginSource StartArgs Instance Compat

/-- Embeds the `ByPaths` loop of `DynamicPluginSource::load`
(loading.rs:217-225): try each path in order with `LibLoader::load_file`,
returning the first success; on failure append a `log::warn!` message and
continue; when all paths fail, `bail!("Plugin not found in {:?}", &paths)`.
Returns (result, log-warning messages, paths attempted); the last two
components are instrumentation. -/
def loadPaths {StartArgs Instance Compat : Type}
    (load_file : LibLoader StartArgs Instance Compat) (allPaths : List String) :
    List String → List String → List String →
      Except String (Library StartArgs Instance Compat × String) × List String × List String
  | [], warns, attempted =>
      (.error ("Plugin not found in " ++ "[" ++
          String.intercalate ", " (allPaths.map (fun s => "\"" ++ s ++ "\"")) ++ "]"),
        warns, attempted)
  | path :: rest, warns, attempted =>
      match load_file path with
      | .ok lp => (.ok lp, warns, attempted ++ [path])
      | .error e =>
          loadPaths load_file allPaths rest
            (warns ++ ["Plugin " ++ path ++ " load fail: " ++ e])
            (attempted ++ [path])

/-- Embeds `DynamicPluginSource::load` (loading.rs:211-228).  `byName`
delegates to the `LibLoader`'s `search_and_load` (exactly one candidate);
`byPaths` runs the loop of `loadPaths`.  The `load_file` argument is the
file-system oracle standing for the associated function
`LibLoader::load_file`.  Returns (result, log warnings, candidates
attempted). -/
def DynamicPluginSource.load {StartArgs Instance Compat : Type}
    (load_file : LibLoader StartArgs Instance Compat) :
    DynamicPluginSource StartArgs Instance Compat →
      Except String (Library StartArgs Instance Compat × String) × List String × List String
  | .byName libloader name => (libloader name, [], [name])
  | .byPaths paths => loadPaths load_file paths paths [] []

/-- Embeds `DynamicPlugin` (loading.rs:287-293).  The Rust field `instance` is
a Lean keyword, hence `instance_`. -/
structure DynamicPlugin (StartArgs Instance Compat : Type) where
  name : String
  condition : PluginCondition
  source : DynamicPluginSource StartArgs Instance Compat
  starter : Option (DynamicPluginStarter StartArgs Instance Compat)
  instance_ : Option Instance

/-- Embeds `DynamicPlugin::new` (loading.rs:298-307). -/
def DynamicPlugin.new {StartArgs Instance Compat : Type} (name : String)
    (source : DynamicPluginSource StartArgs Instance Compat) :
    DynamicPlugin StartArgs Instance Compat :=
  ⟨name, PluginCondition.new, source, none, none⟩

/-- Embeds `DynamicPlugin::path` (loading.rs:315-317). -/
def DynamicPlugin.path {StartArgs Instance Compat : Type}
    (p : DynamicPlugin StartArgs Instance Compat) : String :=
  match p.starter with
  | none => "<not loaded>"
  | some v => v.path

/-- Embeds `DynamicPlugin::status` (loading.rs:318-331). -/
def DynamicPlugin.status {StartArgs Instance Compat : Type}
    (p : DynamicPlugin StartArgs Instance Compat) : PluginStatus :=
  { state :=
      if p.starter.isSome then
        if p.instance_.isSome then PluginState.Running else PluginState.Loaded
      else PluginState.Declared,
    condition := p.condition }

/-- Embeds `DynamicPlugin::load` (loading.rs:337-346).  When a starter already
exists it succeeds at once; otherwise the body of
`self.condition.catch_error(|| ...)` is inlined: the condition is cleared, the
source is consulted, a starter is built (running the compatibility gate), and
on error the formatted error is appended to the cleared condition while the
error is propagated.  The third component is instrumentation: the list of
candidates the source attempted to open (empty when the source was never
consulted). -/
def DynamicPlugin.load {StartArgs Instance Compat : Type}
    (host : Host StartArgs Instance Compat) (load_file : LibLoader StartArgs Instance Compat)
    (p : DynamicPlugin StartArgs Instance Compat) :
    DynamicPlugin StartArgs Instance Compat × Except String Unit × List String :=
  if p.starter.isSome then (p, .ok (), [])
  else
    match DynamicPluginSource.load load_file p.source with
    | (.error e, _warns, attempted) =>
        ({ p with condition := (p.condition.clear).add_error e }, .error e, attempted)
    | (.ok (lib, path), _warns, attempted) =>
        match DynamicPluginStarter.new host lib path with
        | .error e =>
            ({ p with condition := (p.condition.clear).add_error e }, .error e, attempted)
        | .ok st =>
            ({ p with condition := p.condition.clear, starter := some st }, .ok (), attempted)

/-- Embeds `DynamicPlugin::loaded` (loading.rs:347-353): present only when a
starter exists. -/
def DynamicPlugin.loaded {StartArgs Instance Compat : Type}
    (p : DynamicPlugin StartArgs Instance Compat) :
    Option (DynamicPlugin StartArgs Instance Compat) :=
  if p.starter.isSome then some p else none

/-- Embeds `DynamicPlugin::run` (loading.rs:366-379), with the
`catch_error` closure inlined: clear the condition, require a starter (else
the error "Plugin \x60name\x60 not loaded"), skip the start entry point when an
instance already exists, otherwise invoke `starter.start` and cache the
instance; on error append the formatted error.  The third component counts
invocations of the start entry point (instrumentation). -/
def DynamicPlugin.run {StartArgs Instance Compat : Type} (args : StartArgs)
    (p : DynamicPlugin StartArgs Instance Compat) :
    DynamicPlugin StartArgs Instance Compat × Except String Unit × Nat :=
  match p.starter with
  | none =>
      ({ p with condition :=
          (p.condition.clear).add_error ("Plugin `" ++ p.name ++ "` not loaded") },
        .error ("Plugin `" ++ p.name ++ "` not loaded"), 0)
  | some starter =>
      if p.instance_.isSome then
        ({ p with condition := p.condition.clear }, .ok (), 0)
      else
        match starter.start p.name args with
        | .ok i =>
            ({ p with condition := p.condition.clear, instance_ := some i }, .ok (), 1)
        | .error e =>
            ({ p with condition := (p.condition.clear).add_error e }, .error e, 1)

/-- Embeds `DynamicPlugin::running` (loading.rs:380-386): present only when an
instance exists. -/
def DynamicPlugin.running {StartArgs Instance Compat : Type}
    (p : DynamicPlugin StartArgs Instance Compat) :
    Option (DynamicPlugin StartArgs Instance Compat) :=
  if p.instance_.isSome then some p else none

/-- Embeds `DynamicPlugin::stop` (loading.rs:399-401): drops the instance,
keeps the starter (module stays resident). -/
def DynamicPlugin.stop {StartArgs Instance Compat : Type}
    (p : DynamicPlugin StartArgs Instance Compat) :
    DynamicPlugin StartArgs Instance Compat :=
  { p with instance_ := none }

/-- Embeds `DynamicPlugin::instance` (loading.rs:402-404):
`self.instance.as_ref().unwrap()`.  A `none` result models the panic of
`unwrap` on an absent instance — there is no value to return. -/
def DynamicPlugin.instanceGet {StartArgs Instance Compat : Type}
    (p : DynamicPlugin StartArgs Instance Compat) : Option Instance :=
  p.instance_

/-- Embeds `DynamicPlugin::instance_mut` (loading.rs:405-407): same unwrap of
the optional instance; `none` models the panic. -/
def DynamicPlugin.instanceMutGet {StartArgs Instance Compat : Type}
    (p : DynamicPlugin StartArgs Instance Compat) : Option Instance :=
  p.instance_

/-- Embeds `StaticPlugin` (loading.rs:103-109): only the optional instance;
the plugin type `P` is a compile-time parameter whose `STATIC_NAME` and
`start` are passed to the operations that use them. -/
structure StaticPlugin (Instance : Type) where
  instance_ : Option Instance

/-- Embeds `StaticPlugin::new` (loading.rs:116-121). -/
def StaticPlugin.new {Instance : Type} : StaticPlugin Instance := ⟨none⟩

/-- Embeds `StaticPlugin::path` (loading.rs:132-134). -/
def StaticPlugin.path {Instance : Type} (_p : StaticPlugin Instance) : String := "<static>"

/-- Embeds `StaticPlugin::status` (loading.rs:135-142): `Loaded` when no
instance exists, `Running` otherwise, with a fresh (empty) condition. -/
def StaticPlugin.status {Instance : Type} (p : StaticPlugin Instance) : PluginStatus :=
  { state :=
      match p.instance_ with
      | none => PluginState.Loaded
      | some _ => PluginState.Running,
    condition := PluginCondition.new }

/-- Embeds `StaticPlugin::load` (loading.rs:150-152): always succeeds, no
change. -/
def StaticPlugin.load {Instance : Type} (p : StaticPlugin Instance) :
    StaticPlugin Instance × Except String Unit :=
  (p, .ok ())

/-- Embeds `StaticPlugin::run` (loading.rs:166-171): when no instance exists,
invoke `P::start(self.name(), args)` and cache the result, propagating any
error; otherwise do nothing.  `start` and `STATIC_NAME` stand for the plugin
type `P`'s associated start routine and name.  The third component counts
invocations of the start routine (instrumentation). -/
def StaticPlugin.run {StartArgs Instance : Type}
    (start : String → StartArgs → Except String Instance) (STATIC_NAME : String)
    (args : StartArgs) (p : StaticPlugin Instance) :
    StaticPlugin Instance × Except String Unit × Nat :=
  if p.instance_.isNone then
    match start STATIC_NAME args with
    | .ok i => (⟨some i⟩, .ok (), 1)
    | .error e => (p, .error e, 1)
  else
    (p, .ok (), 0)

/-- Embeds `StaticPlugin::running` (loading.rs:172-178). -/
def StaticPlugin.running {Instance : Type} (p : StaticPlugin Instance) :
    Option (StaticPlugin Instance) :=
  if p.instance_.isSome then some p else none

/-- Embeds `StaticPlugin::stop` (loading.rs:193): the body is empty — the
record is returned unchanged. -/
def StaticPlugin.stop {Instance : Type} (p : StaticPlugin Instance) : StaticPlugin Instance :=
  p

/-- Embeds `StaticPlugin::instance` (loading.rs:194-196):
`self.instance.as_ref().unwrap()`; `none` models the panic on an absent
instance. -/
def StaticPlugin.instanceGet {Instance : Type} (p : StaticPlugin Instance) : Option Instance :=
  p.instance_

/-- Embeds `StaticPlugin::instance_mut` (loading.rs:197-199); `none` models
the panic on an absent instance. -/
def StaticPlugin.instanceMutGet {Instance : Type} (p : StaticPlugin Instance) : Option Instance :=
  p.instance_

/-- Embeds the heterogeneous `Box<dyn DeclaredPlugin>` entries of the manager
(spec §9 suggests the tagged-variant rendering): a record is either a static
plugin (carrying `P::STATIC_NAME` and `P::start`) or a dynamic plugin. -/
inductive PluginRecord (StartArgs Instance Compat : Type) where
  | staticRec : String → (String → StartArgs → Except String Instance) →
      StaticPlugin Instance → PluginRecord StartArgs Instance Compat
  | dynamicRec : DynamicPlugin StartArgs Instance Compat →
      PluginRecord StartArgs Instance Compat

/-- Embeds `PluginsManager` (loading.rs:412-416).  The field
`default_lib_prefix` is renamed `defaultLibPfx`. -/
structure PluginsManager (StartArgs Instance Compat : Type) where
  defaultLibPfx : String
  loader : Option (LibLoader StartArgs Instance Compat)
  plugins : List (PluginRecord StartArgs Instance Compat)

/-- Embeds `PluginsManager::dynamic` (loading.rs:422-428). -/
def PluginsManager.dynamicMode {StartArgs Instance Compat : Type}
    (loader : LibLoader StartArgs Instance Compat) (pfx : String) :
    PluginsManager StartArgs Instance Compat :=
  ⟨pfx, some loader, []⟩

/-- Embeds `PluginsManager::static_plugins_only` (loading.rs:430-436). -/
def PluginsManager.static_plugins_only {StartArgs Instance Compat : Type} :
    PluginsManager StartArgs Instance Compat :=
  ⟨"", none, []⟩

/-- Embeds `PluginsManager::add_static_plugin` (loading.rs:439-447). -/
def PluginsManager.add_static_plugin {StartArgs Instance Compat : Type}
    (m : PluginsManager StartArgs Instance Compat) (STATIC_NAME : String)
    (start : String → StartArgs → Except String Instance) :
    PluginsManager StartArgs Instance Compat :=
  { m with plugins := m.plugins ++ [PluginRecord.staticRec STATIC_NAME start StaticPlugin.new] }

/-- Embeds `PluginsManager::add_dynamic_plugin_by_name` (loading.rs:450-469):
prepend the default library prefix to the plugin name, fail with
"Dynamic plugin loading is disabled" when the manager holds no loader,
otherwise push a fresh `ByName` dynamic record.  The `name` argument of the
Rust function is unused there, as here. -/
def PluginsManager.add_dynamic_plugin_by_name {StartArgs Instance Compat : Type}
    (m : PluginsManager StartArgs Instance Compat) (_name : String) (plugin_name : String) :
    PluginsManager StartArgs Instance Compat × Except String Unit :=
  let pn := m.defaultLibPfx ++ plugin_name
  match m.loader with
  | none => (m, .error "Dynamic plugin loading is disabled")
  | some libloader =>
      ({ m with plugins := m.plugins ++
          [PluginRecord.dynamicRec (DynamicPlugin.new pn (.byName libloader pn))] },
        .ok ())

/-- Embeds `PluginsManager::add_dynamic_plugin_by_paths` (loading.rs:472-484):
push a fresh `ByPaths` dynamic record; the loader field is never consulted. -/
def PluginsManager.add_dynamic_plugin_by_paths {StartArgs Instance Compat : Type}
    (m : PluginsManager StartArgs Instance Compat) (name : String) (paths : List String) :
    PluginsManager StartArgs Instance Compat × Except String Unit :=
  ({ m with plugins := m.plugins ++
      [PluginRecord.dynamicRec (DynamicPlugin.new name (.byPaths paths))] },
    .ok ())

/-- Lifecycle operations on one dynamic record, for stating reachability
(claim about every sequence of load/run/stop/status/path calls).  `loadOp`
carries the host record and file-system oracle in effect for that call. -/
inductive DynOp (StartArgs Instance Compat : Type) where
  | loadOp : Host StartArgs Instance Compat → LibLoader StartArgs Instance Compat →
      DynOp StartArgs Instance Compat
  | runOp : StartArgs → DynOp StartArgs Instance Compat
  | stopOp : DynOp StartArgs Instance Compat
  | statusOp : DynOp StartArgs Instance Compat
  | pathOp : DynOp StartArgs Instance Compat

/-- State transition of one lifecycle operation on a dynamic record.
`status` and `path` take `&self` in the source and leave the state
unchanged. -/
def DynamicPlugin.step {StartArgs Instance Compat : Type}
    (op : DynOp StartArgs Instance Compat) (p : DynamicPlugin StartArgs Instance Compat) :
    DynamicPlugin StartArgs Instance Compat :=
  match op with
  | .loadOp host load_file => (DynamicPlugin.load host load_file p).1
  | .runOp args => (DynamicPlugin.run args p).1
  | .stopOp => DynamicPlugin.stop p
  | .statusOp => p
  | .pathOp => p

/-- Runs a sequence of lifecycle operations from a freshly constructed
dynamic record (`DynamicPlugin::new`). -/
def DynamicPlugin.exec {StartArgs Instance Compat : Type} (name : String)
    (source : DynamicPluginSource StartArgs Instance Compat)
    (ops : List (DynOp StartArgs Instance Compat)) :
    DynamicPlugin StartArgs Instance Compat :=
  ops.foldl (fun s op => DynamicPlugin.step op s) (DynamicPlugin.new name source)

/-- The dynamic-record invariant `instance.is_some() ⇒ starter.is_some()`,
as a boolean. -/
def dynInv {StartArgs Instance Compat : Type}
    (p : DynamicPlugin StartArgs Instance Compat) : Bool :=
  !p.instance_.isSome || p.starter.isSome

/-- Concrete host fixture for witnesses: loader-protocol version 1,
compatibility records are naturals compared by equality. -/
def testHost : Host Unit Nat Nat := ⟨1, 0, fun a b => a == b, toString⟩

/-- Concrete entry-point table fixture: `start` always returns instance 7. -/
def testVt : PluginVTable Unit Nat := ⟨fun _ _ => .ok 7⟩

/-- Concrete module fixture that passes the gate against `testHost`. -/
def goodLib : Library Unit Nat Nat := ⟨.ok 1, .ok 0, .ok testVt⟩

/-- Concrete module fixture reporting loader-protocol version 2 (mismatch
against `testHost`). -/
def badVersionLib : Library Unit Nat Nat := ⟨.ok 2, .ok 0, .ok testVt⟩

/-- Concrete starter fixture: `goodLib` resolved at path "B". -/
def testStarter : DynamicPluginStarter Unit Nat Nat := ⟨goodLib, "B", testVt⟩

/-- File-system oracle on which every open fails. -/
def fsAllFail : LibLoader Unit Nat Nat := fun _ => .error "open failed"

/-- File-system oracle on which only path "B" opens (to `goodLib`). -/
def fsAB : LibLoader Unit Nat Nat :=
  fun s => if s = "B" then .ok (goodLib, "B") else .error "no such file"

/-- A dynamic record already loaded (starter cached, no instance). -/
def loadedRecord : DynamicPlugin Unit Nat Nat :=
  ⟨"n", PluginCondition.new, .byPaths ["x"], some testStarter, none⟩

/-- A dynamic record already running (starter cached, instance 5). -/
def runningRecord : DynamicPlugin Unit Nat Nat :=
  ⟨"n", PluginCondition.new, .byPaths ["x"], some testStarter, some 5⟩

/-- The aggregate error produced when the single candidate path "x" fails. -/
def notFoundX : String := "Plugin not found in [\"x\"]"

/-- The record state after a failed load of `DynamicPlugin.new "n" (byPaths ["x"])`
under `fsAllFail`: only the condition changed, holding the aggregate error. -/
def failedRecord : DynamicPlugin Unit Nat Nat :=
  ⟨"n", ⟨[], [notFoundX]⟩, .byPaths ["x"], none, none⟩

/-- Helper: a failing `DynamicPlugin::load` implies the starter was and stays
absent, and the only change to the record is the refilled condition. -/
theorem load_error_eq {SA I C : Type} (host : Host SA I C) (load_file : LibLoader SA I C)
    (p p' : DynamicPlugin SA I C) (e : String) (att : List String)
    (h : DynamicPlugin.load host load_file p = (p', .error e, att)) :
    p.starter = none ∧ p' = { p with condition := ⟨[], [e]⟩ } := by
  unfold DynamicPlugin.load at h
  cases hopt : p.starter with
  | some st =>
      rw [if_pos (by simp [hopt])] at h
      simp at h
  | none =>
      rw [if_neg (by simp [hopt])] at h
      refine ⟨rfl, ?_⟩
      rcases hsrc : DynamicPluginSource.load load_file p.source with ⟨r, w, a⟩
      rw [hsrc] at h
      cases r with
      | error e0 =>
          simp only [Prod.mk.injEq, Except.error.injEq, hopt] at h
          obtain ⟨hp', he, -⟩ := h
          subst he
          exact hp'.symm
      | ok lp =>
          rcases lp with ⟨lib, path⟩
          dsimp only at h
          cases hnew : DynamicPluginStarter.new host lib path with
          | error e0 =>
              rw [hnew] at h
              simp only [Prod.mk.injEq, Except.error.injEq, hopt] at h
              obtain ⟨hp', he, -⟩ := h
              subst he
              exact hp'.symm
          | ok st =>
              rw [hnew] at h
              simp at h

/-- Helper: no lifecycle operation breaks the invariant
`instance.is_some() ⇒ starter.is_some()` on a dynamic record. -/
theorem dynInv_step {SA I C : Type} (op : DynOp SA I C) (p : DynamicPlugin SA I C)
    (h : dynInv p = true) : dynInv (DynamicPlugin.step op p) = true := by
  cases op with
  | loadOp host load_file =>
      show dynInv (DynamicPlugin.load host load_file p).1 = true
      cases hopt : p.starter with
      | some st =>
          have hres : (DynamicPlugin.load host load_file p).1 = p := by
            simp [DynamicPlugin.load, hopt]
          rw [hres]
          exact h
      | none =>
          have hinst : p.instance_ = none := by
            cases hi : p.instance_ with
            | none => rfl
            | some i => simp [dynInv, hopt, hi] at h
          unfold DynamicPlugin.load
          rw [if_neg (by simp [hopt])]
          rcases hsrc : DynamicPluginSource.load load_file p.source with ⟨r, w, a⟩
          cases r with
          | error e0 => simp [dynInv, hinst]
          | ok lp =>
              rcases lp with ⟨lib, path⟩
              cases hnew : DynamicPluginStarter.new host lib path with
              | error e0 => simp [hnew, dynInv, hinst]
              | ok st => simp [hnew, dynInv, hinst]
  | runOp args =>
      show dynInv (DynamicPlugin.run args p).1 = true
      cases hopt : p.starter with
      | none =>
          have hres : (DynamicPlugin.run args p).1 =
              { p with condition :=
                  (p.condition.clear).add_error ("Plugin `" ++ p.name ++ "` not loaded") } := by
            simp [DynamicPlugin.run, hopt]
          rw [hres]
          exact h
      | some st =>
          cases hi : p.instance_ with
          | some j => simp [DynamicPlugin.run, hopt, hi, dynInv]
          | none =>
              cases hstart : DynamicPluginStarter.start st p.name args with
              | ok i => simp [DynamicPlugin.run, hopt, hi, hstart, dynInv]
              | error e => simp [DynamicPlugin.run, hopt, hi, hstart, dynInv]
  | stopOp => simp [DynamicPlugin.step, DynamicPlugin.stop, dynInv]
  | statusOp => exact h
  | pathOp => exact h

/-- Helper: the invariant is preserved along any sequence of lifecycle
operations. -/
theorem dynInv_foldl {SA I C : Type} (ops : List (DynOp SA I C)) (p : DynamicPlugin SA I C)
    (h : dynInv p = true) :
    dynInv (ops.foldl (fun s op => DynamicPlugin.step op s) p) = true := by
  induction ops generalizing p with
  | nil => exact h
  | cons o rest ih => exact ih _ (dynInv_step o p h)

/-- C1: on every dynamic load, `DynamicPluginStarter::get_vtable` reads the
module's loader-protocol version and rejects on any inequality with the
host's constant without ever reading the compatibility record or the
entry-point table; the compatibility record is read only after the version
check passed, and the `load_plugin` vtable is fetched only after both the
version check and the compatibility check passed — no later step is evaluated
once an earlier step has failed. -/
theorem c1_gate_order {SA I C : Type} (host : Host SA I C) (lib : Library SA I C) :
    (∀ v, lib.get_plugin_loader_version = .ok v → v ≠ host.PLUGIN_LOADER_VERSION →
      (DynamicPluginStarter.get_vtable host lib).1 =
        .error ("Plugin loader version mismatch: host = " ++
          toString host.PLUGIN_LOADER_VERSION ++ ", plugin = " ++ toString v) ∧
      (DynamicPluginStarter.get_vtable host lib).2 = [GateStep.readVersion]) ∧
    (GateStep.readCompat ∈ (DynamicPluginStarter.get_vtable host lib).2 →
      lib.get_plugin_loader_version = .ok host.PLUGIN_LOADER_VERSION) ∧
    (GateStep.readVTable ∈ (DynamicPluginStarter.get_vtable host lib).2 →
      lib.get_plugin_loader_version = .ok host.PLUGIN_LOADER_VERSION ∧
      ∃ c, lib.get_compatibility = .ok c ∧
        host.are_compatible c host.host_compatibility_record = true) := by
  refine ⟨?_, ?_, ?_⟩
  · intro v hv hne
    simp only [DynamicPluginStarter.get_vtable, hv]
    rw [if_pos hne]
    exact ⟨rfl, rfl⟩
  · intro hmem
    cases hv : lib.get_plugin_loader_version with
    | error e =>
        simp only [DynamicPluginStarter.get_vtable, hv] at hmem
        simp at hmem
    | ok v =>
        by_cases hveq : v = host.PLUGIN_LOADER_VERSION
        · exact congrArg Except.ok hveq
        · simp only [DynamicPluginStarter.get_vtable, hv] at hmem
          rw [if_pos hveq] at hmem
          simp at hmem
  · intro hmem
    cases hv : lib.get_plugin_loader_version with
    | error e =>
        simp only [DynamicPluginStarter.get_vtable, hv] at hmem
        simp at hmem
    | ok v =>
        by_cases hveq : v = host.PLUGIN_LOADER_VERSION
        · subst hveq
          refine ⟨rfl, ?_⟩
          cases hc : lib.get_compatibility with
          | error e =>
              simp [DynamicPluginStarter.get_vtable, hv, hc] at hmem
          | ok c =>
              cases hcc : host.are_compatible c host.host_compatibility_record with
              | true => exact ⟨c, rfl, hcc⟩
              | false =>
                  simp [DynamicPluginStarter.get_vtable, hv, hc, hcc] at hmem
        · simp only [DynamicPluginStarter.get_vtable, hv] at hmem
          rw [if_pos hveq] at hmem
          simp at hmem

/-- Witness for C1: against `testHost` (protocol version 1), a module reporting
version 2 is rejected with the version-mismatch error after reading only the
version symbol. -/
theorem c1_gate_order_witness :
    (DynamicPluginStarter.get_vtable testHost badVersionLib).1 =
      .error ("Plugin loader version mismatch: host = " ++
        toString testHost.PLUGIN_LOADER_VERSION ++ ", plugin = " ++ toString (2 : Nat)) ∧
    (DynamicPluginStarter.get_vtable testHost badVersionLib).2 = [GateStep.readVersion] :=
  (c1_gate_order testHost badVersionLib).1 2 rfl (by decide)

/-- C2: starting from a freshly constructed dynamic record, every sequence of
lifecycle operations (load, run, stop, status, path) preserves the invariant
`instance.is_some() ⇒ starter.is_some()`: no reachable state holds an instance
without holding a starter. -/
theorem c2_dynamic_invariant {SA I C : Type} (name : String)
    (source : DynamicPluginSource SA I C) (ops : List (DynOp SA I C)) :
    dynInv (DynamicPlugin.exec name source ops) = true :=
  dynInv_foldl ops (DynamicPlugin.new name source) rfl

/-- Counterexample for C3: a freshly constructed static record — on which no
`load()` has ever been called — already reports phase `Loaded`, not
`Declared` (loading.rs:135-142 maps an absent instance to `Loaded`). -/
theorem c3_counterexample :
    (StaticPlugin.status (StaticPlugin.new : StaticPlugin Nat)).state ≠
      PluginState.Declared := by
  decide

/-- C3 as amended: for every dynamic plugin record, `status().phase` is
`Declared` on a freshly constructed record (before any `load()`), and is still
`Declared` after a failed `load()`; a static record, by contrast, is never
`Declared`: a fresh one reports `Loaded`. -/
theorem c3_declared_semantics {SA I C : Type} (nm : String)
    (src : DynamicPluginSource SA I C) (host : Host SA I C) (load_file : LibLoader SA I C)
    (p p' : DynamicPlugin SA I C) (e : String) (att : List String)
    (hfail : DynamicPlugin.load host load_file p = (p', .error e, att)) :
    (DynamicPlugin.status (DynamicPlugin.new nm src)).state = PluginState.Declared ∧
    (DynamicPlugin.status p').state = PluginState.Declared ∧
    (StaticPlugin.status (StaticPlugin.new : StaticPlugin I)).state = PluginState.Loaded := by
  obtain ⟨hsn, hp'⟩ := load_error_eq host load_file p p' e att hfail
  subst hp'
  refine ⟨rfl, ?_, rfl⟩
  simp [DynamicPlugin.status, hsn]

/-- Witness for C3 (amended): the single candidate path "x" fails to open, the
load fails, and the fresh and post-failure records both report `Declared`. -/
theorem c3_declared_semantics_witness :
    (DynamicPlugin.status (DynamicPlugin.new "m" (.byPaths ["y"]) :
        DynamicPlugin Unit Nat Nat)).state = PluginState.Declared ∧
    (DynamicPlugin.status failedRecord).state = PluginState.Declared ∧
    (StaticPlugin.status (StaticPlugin.new : StaticPlugin Nat)).state = PluginState.Loaded :=
  c3_declared_semantics "m" (.byPaths ["y"]) testHost fsAllFail
    (DynamicPlugin.new "n" (.byPaths ["x"])) failedRecord notFoundX ["x"] rfl

/-- Counterexample for C4: `StaticPlugin::stop` has an empty body
(loading.rs:193), so on a running static record `stop()` retains the instance:
`running()` still returns the record, the instance is still present, and
`status().phase` is still `Running` — the claim that `stop()` discards the
cached instance of a static record fails. -/
theorem c4_counterexample :
    StaticPlugin.running (StaticPlugin.stop (⟨some 0⟩ : StaticPlugin Nat)) =
      some ⟨some 0⟩ ∧
    StaticPlugin.instanceGet (StaticPlugin.stop (⟨some 0⟩ : StaticPlugin Nat)) = some 0 ∧
    (StaticPlugin.status (StaticPlugin.stop (⟨some 0⟩ : StaticPlugin Nat))).state =
      PluginState.Running :=
  ⟨rfl, rfl, rfl⟩

/-- C4 as amended: `stop()` on a static record is a no-op — the record (and in
particular its cached instance) is unchanged; only dynamic records discard the
instance on `stop()`, after which `running()` is `None`. -/
theorem c4_stop_semantics {SA I C : Type} (sp : StaticPlugin I)
    (p : DynamicPlugin SA I C) :
    StaticPlugin.stop sp = sp ∧
    (DynamicPlugin.stop p).instance_ = none ∧
    DynamicPlugin.running (DynamicPlugin.stop p) = none ∧
    (DynamicPlugin.stop p).starter = p.starter :=
  ⟨rfl, rfl, by simp [DynamicPlugin.running, DynamicPlugin.stop], rfl⟩

/-- Counterexample for C5: with candidate paths ["A", "B", "C"] where opening
"A" fails and "B" succeeds, `load()` succeeds and `path()` is "B", but the
record's `PluginCondition` holds no warning at all: the per-candidate warning
goes to the log (`log::warn!`, loading.rs:221), never into the condition. -/
theorem c5_counterexample :
    (DynamicPlugin.load testHost fsAB
        (DynamicPlugin.new "n" (.byPaths ["A", "B", "C"]))).2.1 = .ok () ∧
    DynamicPlugin.path (DynamicPlugin.load testHost fsAB
        (DynamicPlugin.new "n" (.byPaths ["A", "B", "C"]))).1 = "B" ∧
    (DynamicPlugin.load testHost fsAB
        (DynamicPlugin.new "n" (.byPaths ["A", "B", "C"]))).1.condition.warnings = [] :=
  ⟨rfl, rfl, rfl⟩

/-- C5 as amended: for `ByPaths([A, B, C])` where opening A fails and opening
B succeeds, `load()` succeeds, `path()` equals B's resolved path, C is never
attempted (the attempt list is exactly [A, B]), and the warning for A is
emitted to the log by the source resolution — the record's `PluginCondition`
warnings stay empty. -/
theorem c5_bypaths_semantics {SA I C : Type} (host : Host SA I C)
    (load_file : LibLoader SA I C) (nm A B Cp pB e : String)
    (libB : Library SA I C) (vt : PluginVTable SA I)
    (hA : load_file A = .error e)
    (hB : load_file B = .ok (libB, pB))
    (hgate : (DynamicPluginStarter.get_vtable host libB).1 = .ok vt) :
    (DynamicPlugin.load host load_file
        (DynamicPlugin.new nm (.byPaths [A, B, Cp]))).2.1 = .ok () ∧
    DynamicPlugin.path (DynamicPlugin.load host load_file
        (DynamicPlugin.new nm (.byPaths [A, B, Cp]))).1 = pB ∧
    (DynamicPlugin.load host load_file
        (DynamicPlugin.new nm (.byPaths [A, B, Cp]))).2.2 = [A, B] ∧
    (DynamicPluginSource.load load_file
        (.byPaths [A, B, Cp] : DynamicPluginSource SA I C)).2.1 =
      ["Plugin " ++ A ++ " load fail: " ++ e] ∧
    (DynamicPlugin.load host load_file
        (DynamicPlugin.new nm (.byPaths [A, B, Cp]))).1.condition.warnings = [] := by
  have hsrc : DynamicPluginSource.load load_file
      (.byPaths [A, B, Cp] : DynamicPluginSource SA I C) =
      (.ok (libB, pB), ["Plugin " ++ A ++ " load fail: " ++ e], [A, B]) := by
    simp [DynamicPluginSource.load, loadPaths, hA, hB]
  have hnew : DynamicPluginStarter.new host libB pB = .ok ⟨libB, pB, vt⟩ := by
    unfold DynamicPluginStarter.new
    rw [hgate]
  refine ⟨?_, ?_, ?_, by rw [hsrc], ?_⟩ <;>
    simp [DynamicPlugin.load, DynamicPlugin.new, hsrc, hnew, DynamicPlugin.path,
      PluginCondition.clear]

/-- Witness for C5 (amended): under `fsAB` only "B" opens (to `goodLib`, which
passes the gate against `testHost`); loading `ByPaths(["A", "B", "C"])`
succeeds with path "B", attempts exactly ["A", "B"], logs one warning for "A",
and records no warning in the condition. -/
theorem c5_bypaths_semantics_witness :
    (DynamicPlugin.load testHost fsAB
        (DynamicPlugin.new "w" (.byPaths ["A", "B", "C"]))).2.1 = .ok () ∧
    DynamicPlugin.path (DynamicPlugin.load testHost fsAB
        (DynamicPlugin.new "w" (.byPaths ["A", "B", "C"]))).1 = "B" ∧
    (DynamicPlugin.load testHost fsAB
        (DynamicPlugin.new "w" (.byPaths ["A", "B", "C"]))).2.2 = ["A", "B"] ∧
    (DynamicPluginSource.load fsAB
        (.byPaths ["A", "B", "C"] : DynamicPluginSource Unit Nat Nat)).2.1 =
      ["Plugin " ++ "A" ++ " load fail: " ++ "no such file"] ∧
    (DynamicPlugin.load testHost fsAB
        (DynamicPlugin.new "w" (.byPaths ["A", "B", "C"]))).1.condition.warnings = [] :=
  c5_bypaths_semantics testHost fsAB "w" "A" "B" "C" "B" "no such file" goodLib testVt
    rfl rfl rfl

/-- C6: whenever `DynamicPlugin::load` fails, the error is returned to the
caller, the record's condition holds exactly the rendering of that error (the
stale diagnostics having been cleared, so no warnings either), and the record
is otherwise unchanged: the starter was and remains absent, the instance is
untouched, and `status().phase` is still `Declared`. -/
theorem c6_load_failure {SA I C : Type} (host : Host SA I C)
    (load_file : LibLoader SA I C) (p p' : DynamicPlugin SA I C) (e : String)
    (att : List String)
    (h : DynamicPlugin.load host load_file p = (p', .error e, att)) :
    p.starter = none ∧
    p'.starter = none ∧
    (DynamicPlugin.status p').state = PluginState.Declared ∧
    p'.condition.errors = [e] ∧
    p'.condition.warnings = [] ∧
    p'.name = p.name ∧
    p'.instance_ = p.instance_ := by
  obtain ⟨hsn, hp'⟩ := load_error_eq host load_file p p' e att h
  subst hp'
  refine ⟨hsn, hsn, ?_, rfl, rfl, rfl, rfl⟩
  simp [DynamicPlugin.status, hsn]

/-- Witness for C6: under `fsAllFail` the single candidate "x" cannot be
opened; the load fails with the aggregate error, which is the sole content of
the condition, and the record stays `Declared`. -/
theorem c6_load_failure_witness :
    (DynamicPlugin.new "n" (.byPaths ["x"]) : DynamicPlugin Unit Nat Nat).starter = none ∧
    failedRecord.starter = none ∧
    (DynamicPlugin.status failedRecord).state = PluginState.Declared ∧
    failedRecord.condition.errors = [notFoundX] ∧
    failedRecord.condition.warnings = [] ∧
    failedRecord.name = (DynamicPlugin.new "n" (.byPaths ["x"]) :
      DynamicPlugin Unit Nat Nat).name ∧
    failedRecord.instance_ = (DynamicPlugin.new "n" (.byPaths ["x"]) :
      DynamicPlugin Unit Nat Nat).instance_ :=
  c6_load_failure testHost fsAllFail (DynamicPlugin.new "n" (.byPaths ["x"]))
    failedRecord notFoundX ["x"] rfl

/-- Counterexample for C7: on a registry constructed with
`static_plugins_only`, inserting a dynamic plugin by explicit path list
succeeds and appends a record — `add_dynamic_plugin_by_paths`
(loading.rs:472-484) never consults the loader, so the claim that both
insertion forms fail with the dynamic-loading-disabled error is false. -/
theorem c7_counterexample :
    ((PluginsManager.static_plugins_only : PluginsManager Unit Nat Nat).add_dynamic_plugin_by_paths
        "n" ["p"]).2 = .ok () ∧
    ((PluginsManager.static_plugins_only : PluginsManager Unit Nat Nat).add_dynamic_plugin_by_paths
        "n" ["p"]).1.plugins.length = 1 :=
  ⟨rfl, rfl⟩

/-- C7 as amended: on a registry whose loader is absent (static-only mode),
insertion by name fails with the "Dynamic plugin loading is disabled" error
and leaves the registry unchanged, while insertion by explicit path list does
not consult the loader: it succeeds and appends the freshly declared record
even in static-only mode. -/
theorem c7_static_only_insertion {SA I C : Type} (m : PluginsManager SA I C)
    (hm : m.loader = none) (nm pn : String) (paths : List String) :
    PluginsManager.add_dynamic_plugin_by_name m nm pn =
      (m, .error "Dynamic plugin loading is disabled") ∧
    (PluginsManager.add_dynamic_plugin_by_paths m nm paths).2 = .ok () ∧
    (PluginsManager.add_dynamic_plugin_by_paths m nm paths).1.plugins =
      m.plugins ++ [PluginRecord.dynamicRec (DynamicPlugin.new nm (.byPaths paths))] := by
  refine ⟨?_, rfl, rfl⟩
  simp [PluginsManager.add_dynamic_plugin_by_name, hm]

/-- Witness for C7 (amended): the fresh static-only registry rejects insertion
by name and accepts insertion by paths. -/
theorem c7_static_only_insertion_witness :
    PluginsManager.add_dynamic_plugin_by_name
        (PluginsManager.static_plugins_only : PluginsManager Unit Nat Nat) "n" "p" =
      (PluginsManager.static_plugins_only, .error "Dynamic plugin loading is disabled") ∧
    ((PluginsManager.static_plugins_only : PluginsManager Unit Nat Nat).add_dynamic_plugin_by_paths
        "n" ["q"]).2 = .ok () ∧
    ((PluginsManager.static_plugins_only : PluginsManager Unit Nat Nat).add_dynamic_plugin_by_paths
        "n" ["q"]).1.plugins =
      (PluginsManager.static_plugins_only : PluginsManager Unit Nat Nat).plugins ++
        [PluginRecord.dynamicRec (DynamicPlugin.new "n" (.byPaths ["q"]))] :=
  c7_static_only_insertion PluginsManager.static_plugins_only rfl "n" "p" ["q"]

/-- Counterexample for C8: `instance()` / `instance_mut` unwrap the optional
instance (loading.rs:402-407); on a record whose instance is absent (here:
right after `stop()`) the unwrap has no value to return — the embedded
accessor yields `none`, which models the `unwrap` panic, falsifying the claim
that these calls never panic. -/
theorem c8_counterexample :
    DynamicPlugin.instanceGet (DynamicPlugin.stop runningRecord) = none ∧
    DynamicPlugin.instanceMutGet (DynamicPlugin.stop runningRecord) = none ∧
    StaticPlugin.instanceGet (StaticPlugin.stop (⟨none⟩ : StaticPlugin Nat)) = none :=
  ⟨rfl, rfl, rfl⟩

/-- C8 as amended: phase-guarded operations fail softly — `run()` on a record
without a starter returns the "not loaded" error, and `loaded()`/`running()`
return `None` for a record not in that phase — but `instance()` and
`instance_mut()` called while the instance is absent unwrap `None` and panic
(modelled as having no value to return); callers must branch on
`running()` first. -/
theorem c8_phase_guards {SA I C : Type} (q p : DynamicPlugin SA I C)
    (sp : StaticPlugin I) (args : SA)
    (hq : q.starter = none) (hp : p.instance_ = none) (hsp : sp.instance_ = none) :
    (DynamicPlugin.run args q).2.1 = .error ("Plugin `" ++ q.name ++ "` not loaded") ∧
    DynamicPlugin.loaded q = none ∧
    DynamicPlugin.running p = none ∧
    DynamicPlugin.instanceGet p = none ∧
    StaticPlugin.running sp = none ∧
    StaticPlugin.instanceGet sp = none := by
  refine ⟨?_, ?_, ?_, hp, ?_, hsp⟩
  · simp [DynamicPlugin.run, hq]
  · simp [DynamicPlugin.loaded, hq]
  · simp [DynamicPlugin.running, hp]
  · simp [StaticPlugin.running, hsp]

/-- Witness for C8 (amended): a fresh dynamic record has no starter, a stopped
record has no instance, and a fresh static record has no instance; the guarded
operations return the error / `None`, and the instance accessors have no value
(the modelled panic). -/
theorem c8_phase_guards_witness :
    (DynamicPlugin.run () (DynamicPlugin.new "n" (.byPaths ["x"]) :
        DynamicPlugin Unit Nat Nat)).2.1 =
      .error ("Plugin `" ++ (DynamicPlugin.new "n" (.byPaths ["x"]) :
        DynamicPlugin Unit Nat Nat).name ++ "` not loaded") ∧
    DynamicPlugin.loaded (DynamicPlugin.new "n" (.byPaths ["x"]) :
      DynamicPlugin Unit Nat Nat) = none ∧
    DynamicPlugin.running (DynamicPlugin.stop runningRecord) = none ∧
    DynamicPlugin.instanceGet (DynamicPlugin.stop runningRecord) = none ∧
    StaticPlugin.running (StaticPlugin.new : StaticPlugin Nat) = none ∧
    StaticPlugin.instanceGet (StaticPlugin.new : StaticPlugin Nat) = none :=
  c8_phase_guards (DynamicPlugin.new "n" (.byPaths ["x"]))
    (DynamicPlugin.stop runningRecord) StaticPlugin.new () rfl rfl rfl

/-- C9: `load()` on an already-loaded dynamic record is the identity with a
success result: the source is not consulted (no open is attempted), the
condition is not cleared, and `path()`, the starter and the condition are all
unchanged because the record itself is returned untouched. -/
theorem c9_load_idempotent {SA I C : Type} (host : Host SA I C)
    (load_file : LibLoader SA I C) (p : DynamicPlugin SA I C)
    (st : DynamicPluginStarter SA I C) (hst : p.starter = some st) :
    DynamicPlugin.load host load_file p = (p, .ok (), []) := by
  simp [DynamicPlugin.load, hst]

/-- Witness for C9: a second `load()` of `loadedRecord` (starter cached at
path "B") returns success, attempts no open, and leaves the record — hence its
path, starter and condition — exactly as it was. -/
theorem c9_load_idempotent_witness :
    DynamicPlugin.load testHost fsAllFail loadedRecord = (loadedRecord, .ok (), []) :=
  c9_load_idempotent testHost fsAllFail loadedRecord testStarter rfl

/-- C10: `run()` on a record that already holds an instance does not invoke
the start entry point (the instrumentation count is 0), succeeds, and leaves
the instance the same value as before — for the static record the whole record
is returned unchanged, for the dynamic record the cached instance is
untouched. -/
theorem c10_run_idempotent {SA I C : Type}
    (start : String → SA → Except String I) (nm : String) (args : SA)
    (sp : StaticPlugin I) (i : I) (p : DynamicPlugin SA I C) (j : I)
    (st : DynamicPluginStarter SA I C)
    (hsp : sp.instance_ = some i) (hst : p.starter = some st)
    (hp : p.instance_ = some j) :
    StaticPlugin.run start nm args sp = (sp, .ok (), 0) ∧
    (DynamicPlugin.run args p).1.instance_ = some j ∧
    (DynamicPlugin.run args p).2.1 = .ok () ∧
    (DynamicPlugin.run args p).2.2 = 0 := by
  refine ⟨?_, ?_, ?_, ?_⟩ <;>
    simp [StaticPlugin.run, DynamicPlugin.run, hsp, hst, hp]

/-- Witness for C10: a running static record (instance 5) and the running
dynamic record `runningRecord` both accept a second `run()` with zero start
invocations and an unchanged instance. -/
theorem c10_run_idempotent_witness :
    StaticPlugin.run (fun _ _ => .ok 7) "s" () (⟨some 5⟩ : StaticPlugin Nat) =
      (⟨some 5⟩, .ok (), 0) ∧
    (DynamicPlugin.run () runningRecord).1.instance_ = some 5 ∧
    (DynamicPlugin.run () runningRecord).2.1 = .ok () ∧
    (DynamicPlugin.run () runningRecord).2.2 = 0 :=
  c10_run_idempotent (fun _ _ => .ok 7) "s" () ⟨some 5⟩ 5 runningRecord 5 testStarter
    rfl rfl rfl
